import Mathlib

/-!
Verification of the CUATRO optimizer front end
(`src/CUATRO/optimizer/CUATRO_optimizer_use.py`).

The file embeds the `CUATRO` class shallowly: the constructor `__init__`
becomes `CUATRO.init : CUATROArgs → Except String CUATRO` (a Python
`raise ValueError` becomes `Except.error`), and the dispatcher
`run_optimiser` becomes `CUATRO.run_optimiser`, parametrized over the
variant implementations (`CUATRO_g`, `CUATRO_base`, and the exploration
heuristics), whose code lives outside the shown source.  Numeric Python
values are modelled as rationals.  The trust-region loop executed by the
variant implementations is modelled from the specification further below.
-/

/-- The `automatic_params` dictionary with its three required keys
`exp`, `safety` and `convex`. -/
structure AutomaticParams where
  exp : String
  safety : String
  convex : String
deriving DecidableEq, Repr

/-- The solver object returned by `CUATRO.utilities.assign_solver`
(e.g. `cp.SCS` or `cp.MOSEK`). -/
inductive SolverObject where
  | SCS
  | MOSEK
deriving DecidableEq, Repr

/-- Modelled from the spec: `CUATRO.utilities.assign_solver` (not under
`src/`) resolves the solver-name string to the solver object, mapping
"SCS" to the SCS solver and "MOSEK" to the MOSEK solver; `__init__`
only calls it after validating the name. -/
def assign_solver (s : String) : SolverObject :=
  if s == "MOSEK" then SolverObject.MOSEK else SolverObject.SCS

/-- The arguments of `CUATRO.__init__`, in source order. -/
structure CUATROArgs where
  x0 : List ℚ
  init_radius : ℚ
  max_iter : ℚ
  tolerance : ℚ
  beta_inc : ℚ
  beta_red : ℚ
  eta1 : ℚ
  eta2 : ℚ
  method : String
  N_min_samples : ℚ
  print_status : Bool
  constr_handling : String
  sampling : String
  explore : Option String
  sampling_trust_pair : List ℚ
  min_radius : ℚ
  min_restart_radius : ℚ
  conv_radius : ℚ
  no_x0 : ℚ
  rescale_radius : Bool
  solver_to_use : String
  automatic_params : Option AutomaticParams

/-- A constructed `CUATRO` object: the attributes `__init__` assigns.
`solver_to_use` holds the resolved solver object, not the name string. -/
structure CUATRO where
  x0 : List ℚ
  init_radius : ℚ
  max_iter : ℚ
  tolerance : ℚ
  beta_inc : ℚ
  beta_red : ℚ
  eta1 : ℚ
  eta2 : ℚ
  method : String
  N_min_samples : ℚ
  print_status : Bool
  constr_handling : String
  sampling : String
  explore : Option String
  sampling_trust_pair : List ℚ
  min_radius : ℚ
  min_restart_radius : ℚ
  conv_radius : ℚ
  no_x0 : ℚ
  rescale_radius : Bool
  solver_to_use : SolverObject
  automatic_params : Option AutomaticParams
deriving DecidableEq, Repr

/-- The automatic-parameter block at the end of `__init__`: every branch
of every `if` is `pass`, so the configuration is returned unchanged. -/
def CUATRO.applyAutomaticParams (c : CUATRO) : CUATRO :=
  match c.automatic_params with
  | none => c
  | some q =>
      let c1 := if q.exp == "expensive" then c else c
      let c2 := if q.safety == "safety" then c1 else c1
      if q.convex == "convex" then c2 else c2

/-- `CUATRO.__init__`: assigns the attributes and validates the five
string-valued arguments, in source order (method, constr_handling,
sampling, explore, solver_to_use); a failed check raises `ValueError`.
No numeric argument is inspected. -/
def CUATRO.init (a : CUATROArgs) : Except String CUATRO :=
  if a.method ∉ (["local", "global"] : List String) then
    Except.error "Please provide valid method"
  else if a.constr_handling ∉ (["Discrimination", "Regression"] : List String) then
    Except.error "Please provide valid constraint handling method"
  else if a.sampling ∉ (["base", "g"] : List String) then
    Except.error "Please enter a valid sampling method"
  else if a.explore ∉ ([none, some "feasible_sampling", some "exploit_explore",
      some "sampling_region", some "TIS", some "TIP"] : List (Option String)) then
    Except.error "Please enter valid exploration heuristics or None"
  else if a.solver_to_use ∉ (["SCS", "MOSEK"] : List String) then
    Except.error "Please enter a valid solver (SCS or MOSEK)"
  else
    Except.ok (CUATRO.applyAutomaticParams
      { x0 := a.x0
        init_radius := a.init_radius
        max_iter := a.max_iter
        tolerance := a.tolerance
        beta_inc := a.beta_inc
        beta_red := a.beta_red
        eta1 := a.eta1
        eta2 := a.eta2
        method := a.method
        N_min_samples := a.N_min_samples
        print_status := a.print_status
        constr_handling := a.constr_handling
        sampling := a.sampling
        explore := a.explore
        sampling_trust_pair := a.sampling_trust_pair
        min_radius := a.min_radius
        min_restart_radius := a.min_restart_radius
        conv_radius := a.conv_radius
        no_x0 := a.no_x0
        rescale_radius := a.rescale_radius
        solver_to_use := assign_solver a.solver_to_use
        automatic_params := a.automatic_params })

/-- The five string-domain checks of `__init__`, as one predicate. -/
def stringDomainsValid (a : CUATROArgs) : Prop :=
  a.method ∈ (["local", "global"] : List String) ∧
  a.constr_handling ∈ (["Discrimination", "Regression"] : List String) ∧
  a.sampling ∈ (["base", "g"] : List String) ∧
  a.explore ∈ ([none, some "feasible_sampling", some "exploit_explore",
      some "sampling_region", some "TIS", some "TIP"] : List (Option String)) ∧
  a.solver_to_use ∈ (["SCS", "MOSEK"] : List String)

instance (a : CUATROArgs) : Decidable (stringDomainsValid a) := by
  unfold stringDomainsValid; infer_instance

/-- The tags of the seven dispatched variant implementations. -/
inductive Variant where
  | g
  | base
  | feas_samp
  | expl_expl
  | samp_region
  | TIS
  | TIP
deriving DecidableEq, Repr

/-- The arguments `run_optimiser` receives and forwards to the selected
variant's `optimise`: `bounds` is exposed (the rescaling branch reads
it); `payload` carries the remaining arguments (`sim`, `constraints`,
`max_f_eval`, `rnd`, `prior_evals`) opaquely. -/
structure OptArgs (α : Type) where
  bounds : Option (List (ℚ × ℚ))
  payload : α

/-- Python truthiness of the `bounds` argument: `None` and the empty
list are falsy. -/
def boundsTruthy : Option (List (ℚ × ℚ)) → Bool
  | none => false
  | some l => !l.isEmpty

/-- Modelled from the spec: `CUATRO.utilities.rescale_radius` (not under
`src/`) rescales the initial trust-region radius to the scale of the
supplied box bounds, multiplying it by half the mean bound width. -/
def ut_rescale_radius (radius : ℚ) (bounds : List (ℚ × ℚ)) : ℚ :=
  radius * ((bounds.map (fun b => b.2 - b.1)).foldl (· + ·) 0) / (2 * bounds.length)

/-- The in-place mutation `run_optimiser` performs on `self` before
dispatching: when `self.rescale_radius` holds and `bounds` is truthy,
`self.init_radius` is overwritten with the rescaled radius. -/
def CUATRO.post_self (c : CUATRO) (bounds : Option (List (ℚ × ℚ))) : CUATRO :=
  if c.rescale_radius && boundsTruthy bounds then
    { c with init_radius := ut_rescale_radius c.init_radius (bounds.getD []) }
  else c

/-- The `ValueError` message raised when exploration heuristics are
combined with non-MCD sampling (abridged). -/
def mismatchMsg : String :=
  "Exploration heuristics were developed to be used with MCD implemented"

/-- `CUATRO.run_optimiser`: after the optional radius rescaling, the
`if/elif` chain dispatches on `self.sampling` and `self.explore`,
constructs the selected variant from `self.x0` alone, and returns the
result of its `optimise` unchanged.  `impls` stands for the variant
implementations (imported from modules outside the shown source); the
final arm models Python's `UnboundLocalError` when no branch assigns
`output`. -/
def CUATRO.run_optimiser {α β : Type} (impls : Variant → List ℚ → OptArgs α → β)
    (c : CUATRO) (args : OptArgs α) : Except String β :=
  let s := c.post_self args.bounds
  if s.sampling == "g" then
    if s.explore ≠ none then Except.error mismatchMsg
    else Except.ok (impls Variant.g s.x0 args)
  else if s.sampling == "base" && s.explore == none then
    Except.ok (impls Variant.base s.x0 args)
  else if s.explore == some "feasible_sampling" then
    if s.sampling ≠ "base" then Except.error mismatchMsg
    else Except.ok (impls Variant.feas_samp s.x0 args)
  else if s.explore == some "exploit_explore" then
    if s.sampling ≠ "base" then Except.error mismatchMsg
    else Except.ok (impls Variant.expl_expl s.x0 args)
  else if s.explore == some "sampling_region" then
    if s.sampling ≠ "base" then Except.error mismatchMsg
    else Except.ok (impls Variant.samp_region s.x0 args)
  else if s.explore == some "TIS" then
    if s.sampling ≠ "base" then Except.error mismatchMsg
    else Except.ok (impls Variant.TIS s.x0 args)
  else if s.explore == some "TIP" then
    if s.sampling ≠ "base" then Except.error mismatchMsg
    else Except.ok (impls Variant.TIP s.x0 args)
  else Except.error "UnboundLocalError: output"

/-- The complete effect of one `run_optimiser` call: the state `self`
is left in, paired with the value returned (or the error raised). -/
def CUATRO.run_optimiser_state {α β : Type} (impls : Variant → List ℚ → OptArgs α → β)
    (c : CUATRO) (args : OptArgs α) : CUATRO × Except String β :=
  (c.post_self args.bounds, c.run_optimiser impls args)

/-- The variant selection described by the specification: a single
strategy implementation, determined by the `(sampling, explore)` pair
alone, chosen once at configuration time. -/
def selectVariant (sampling : String) (explore : Option String) : Option Variant :=
  match explore with
  | none =>
      if sampling = "g" then some Variant.g
      else if sampling = "base" then some Variant.base
      else none
  | some e =>
      if sampling = "base" then
        if e = "feasible_sampling" then some Variant.feas_samp
        else if e = "exploit_explore" then some Variant.expl_expl
        else if e = "sampling_region" then some Variant.samp_region
        else if e = "TIS" then some Variant.TIS
        else if e = "TIP" then some Variant.TIP
        else none
      else none

/-- Modelled from the spec: the loop hyperparameters a variant
implementation runs with.  The variants are constructed from `x0` alone,
so these are the documented defaults plus the `max_f_eval` budget passed
to `optimise`. -/
structure LoopCfg where
  init_radius : ℚ
  N_min_samples : Nat
  max_iter : Nat
  max_f_eval : Nat
  beta_inc : ℚ
  beta_red : ℚ
  eta1 : ℚ
  eta2 : ℚ
  min_radius : ℚ

/-- Modelled from the spec: the mutable state one `optimise` invocation
owns — trust-region center and radius, sample history (`X_samples_list`
paired with `f_eval_list`), the best pair found so far, the evaluation
count, and the per-iteration records `f_store`/`x_store`. -/
structure LoopState where
  center : List ℚ
  radius : ℚ
  hist : List (List ℚ × ℚ)
  best : Option (List ℚ × ℚ)
  f_evals : Nat
  f_store : List ℚ
  x_store : List (List ℚ)
deriving Repr

/-- The incumbent update: the best pair is replaced only when the new
value strictly improves it. -/
def betterPair (b : List ℚ × ℚ) (x : List ℚ) (fx : ℚ) : List ℚ × ℚ :=
  if fx < b.2 then (x, fx) else b

/-- Record one true-function evaluation in the history and update the
incumbent. -/
def recordEval (s : LoopState) (x : List ℚ) (fx : ℚ) : LoopState :=
  { s with
    hist := s.hist ++ [(x, fx)]
    best := some (match s.best with
      | none => (x, fx)
      | some b => betterPair b x fx) }

/-- Modelled from the spec: evaluate `sim` at one point under the hard
evaluation budget.  When the budget is already exhausted the state is
returned untouched with the stop flag set — the cutoff is checked before
every single evaluation. -/
def evalOne (sim : List ℚ → ℚ) (maxfe : Nat) (s : LoopState) (x : List ℚ) :
    LoopState × Bool :=
  if s.f_evals < maxfe then
    ({ recordEval s x (sim x) with f_evals := s.f_evals + 1 }, false)
  else (s, true)

/-- Evaluate a list of proposed sample points in order, stopping at the
first point the budget refuses. -/
def evalList (sim : List ℚ → ℚ) (maxfe : Nat) (s : LoopState) :
    List (List ℚ) → LoopState × Bool
  | [] => (s, false)
  | x :: rest =>
      match evalOne sim maxfe s x with
      | (s1, true) => (s1, true)
      | (s1, false) => evalList sim maxfe s1 rest

/-- Append the per-iteration record: the best function value and best
point so far (nothing is recorded while no evaluation exists). -/
def pushRecord (s : LoopState) : LoopState :=
  match s.best with
  | none => s
  | some b => { s with f_store := s.f_store ++ [b.2], x_store := s.x_store ++ [b.1] }

/-- Chebyshev distance between two points, used for the trust-region
membership test. -/
def distInf (x y : List ℚ) : ℚ :=
  (List.zipWith (fun a b => |a - b|) x y).foldl max 0

/-- Number of history points inside the current trust region. -/
def countInRegion (s : LoopState) : Nat :=
  (s.hist.filter (fun p => decide (distInf p.1 s.center ≤ s.radius))).length

/-- Modelled from the spec: the three algorithmic capabilities the loop
drives each iteration — the sample selector, the surrogate subproblem
solver (returning the candidate point), and the predicted-vs-actual
improvement function backing the ratio test.  The budget and
monotonicity claims are proved for every instantiation. -/
structure LoopOracle where
  sampler : LoopState → List (List ℚ)
  solver : LoopState → List ℚ
  rho_of : LoopState → List ℚ → ℚ

/-- The sampling phase of one iteration: when fewer than
`N_min_samples` history points lie inside the region, the selector's
proposals are evaluated (under the budget); otherwise nothing happens. -/
def samplePhase (O : LoopOracle) (sim : List ℚ → ℚ) (cfg : LoopCfg) (s : LoopState) :
    LoopState × Bool :=
  if countInRegion s < cfg.N_min_samples then evalList sim cfg.max_f_eval s (O.sampler s)
  else (s, false)

/-- The ratio test: reject and shrink below `eta1`, accept with the
radius unchanged between `eta1` and `eta2`, accept and grow above
`eta2`.  `s1` is the state the surrogate was built on, `s2` the state
after evaluating the candidate `xc`. -/
def ratioUpdate (O : LoopOracle) (cfg : LoopCfg) (s1 s2 : LoopState) (xc : List ℚ) :
    LoopState :=
  if O.rho_of s1 xc < cfg.eta1 then { s2 with radius := s2.radius * cfg.beta_red }
  else if O.rho_of s1 xc < cfg.eta2 then { s2 with center := xc }
  else { s2 with center := xc, radius := s2.radius * cfg.beta_inc }

/-- Modelled from the spec: one trust-region iteration — top up the
sample set to `N_min_samples` inside the region, solve the subproblem
for a candidate, evaluate it, run the ratio test to move the center and
resize the radius, record the iteration, and report whether the loop
must stop (budget exhausted or radius below `min_radius`). -/
def iterStep (O : LoopOracle) (sim : List ℚ → ℚ) (cfg : LoopCfg) (s : LoopState) :
    LoopState × Bool :=
  match samplePhase O sim cfg s with
  | (s1, true) => (pushRecord s1, true)
  | (s1, false) =>
      match evalOne sim cfg.max_f_eval s1 (O.solver s1) with
      | (s2, true) => (pushRecord s2, true)
      | (s2, false) =>
          let s4 := pushRecord (ratioUpdate O cfg s1 s2 (O.solver s1))
          (s4, decide (s4.radius < cfg.min_radius))

/-- Run up to `fuel` iterations, stopping when `iterStep` reports a
termination condition. -/
def runLoop (O : LoopOracle) (sim : List ℚ → ℚ) (cfg : LoopCfg) :
    Nat → LoopState → LoopState
  | 0, s => s
  | Nat.succ n, s =>
      match iterStep O sim cfg s with
      | (s1, true) => s1
      | (s1, false) => runLoop O sim cfg n s1

/-- The `x0_method : best eval` seeding: the prior pair with the lowest
function value, when prior evaluations exist. -/
def bestOfPrior : List (List ℚ × ℚ) → Option (List ℚ × ℚ)
  | [] => none
  | p :: ps => some (ps.foldl (fun b q => if q.2 < b.2 then q else b) p)

/-- The state before the first iteration: prior evaluations merged into
the history, the trust region centred on `x0` with the initial radius,
and no budget consumed. -/
def initState (cfg : LoopCfg) (x0 : List ℚ) (prior : List (List ℚ × ℚ)) : LoopState :=
  { center := x0
    radius := cfg.init_radius
    hist := prior
    best := bestOfPrior prior
    f_evals := 0
    f_store := []
    x_store := [] }

/-- Modelled from the spec: the `optimise` entrypoint of a variant
implementation — seed the state from `x0` and `prior_evals`, then run
the trust-region loop for at most `max_iter` iterations. -/
def optimise (O : LoopOracle) (sim : List ℚ → ℚ) (cfg : LoopCfg) (x0 : List ℚ)
    (prior : List (List ℚ × ℚ)) : LoopState :=
  runLoop O sim cfg cfg.max_iter (initState cfg x0 prior)

/-- The arguments a variant's `optimise` receives beside `bounds`:
the simulator, the constraint functions, the evaluation budget, the
random seed and the prior evaluations. -/
structure GPayload where
  sim : List ℚ → ℚ
  constraints : List (List ℚ → ℚ)
  max_f_eval : Nat
  rnd : Nat
  prior : List (List ℚ × ℚ)

/-- Modelled from the spec: the documented default hyperparameters a
variant constructed from `x0` alone runs with, together with the
`max_f_eval` budget passed to `optimise`. -/
def defaultLoopCfg (maxfe : Nat) : LoopCfg :=
  { init_radius := 1
    N_min_samples := 6
    max_iter := 100
    max_f_eval := maxfe
    beta_inc := 6/5
    beta_red := 4/5
    eta1 := 1/5
    eta2 := 4/5
    min_radius := 1/20 }

/-- Modelled from the spec: the sampling/solving/ratio capabilities of a
variant implementation.  All variants are layered on the same core loop;
their point-selection schemes are deterministic given the `rnd` seed,
modelled here by a simple geometric scheme (the spec leaves the exact
schemes out of scope). -/
def variantOracle (v : Variant) (rnd : Nat) : LoopOracle :=
  { sampler := fun s =>
      [ s.center.map (fun t => t + s.radius / ((rnd % 7) + 1))
      , s.center.map (fun t => t - s.radius / ((rnd % 7) + 1)) ]
    solver := fun s =>
      if v = Variant.g then s.center.map (fun t => t - s.radius / 2)
      else s.center.map (fun t => t - s.radius / 3)
    rho_of := fun _ _ => 1/2 }

/-- Modelled from the spec: the variant implementations dispatched by
`run_optimiser` (`CUATRO_g`, `CUATRO_base` and the five exploration
heuristics, none under `src/`): each is constructed from `x0` alone and
runs the core trust-region loop on the forwarded arguments. -/
def CUATRO_impls (v : Variant) (x0 : List ℚ) (args : OptArgs GPayload) : LoopState :=
  optimise (variantOracle v args.payload.rnd) args.payload.sim
    (defaultLoopCfg args.payload.max_f_eval) x0 args.payload.prior

/-- A baseline valid argument record, mirroring the Python defaults
(`x0` has no default; `[1, 1]` is used here). -/
def defaultArgs : CUATROArgs :=
  { x0 := [1, 1]
    init_radius := 1
    max_iter := 100
    tolerance := 1/100000000
    beta_inc := 6/5
    beta_red := 4/5
    eta1 := 1/5
    eta2 := 4/5
    method := "local"
    N_min_samples := 6
    print_status := false
    constr_handling := "Discrimination"
    sampling := "g"
    explore := none
    sampling_trust_pair := [1/10, 9/10]
    min_radius := 1/20
    min_restart_radius := 2
    conv_radius := 1/5
    no_x0 := 5
    rescale_radius := false
    solver_to_use := "SCS"
    automatic_params := none }

/-- The object `CUATRO.init defaultArgs` constructs. -/
def defaultObj : CUATRO :=
  { x0 := [1, 1]
    init_radius := 1
    max_iter := 100
    tolerance := 1/100000000
    beta_inc := 6/5
    beta_red := 4/5
    eta1 := 1/5
    eta2 := 4/5
    method := "local"
    N_min_samples := 6
    print_status := false
    constr_handling := "Discrimination"
    sampling := "g"
    explore := none
    sampling_trust_pair := [1/10, 9/10]
    min_radius := 1/20
    min_restart_radius := 2
    conv_radius := 1/5
    no_x0 := 5
    rescale_radius := false
    solver_to_use := SolverObject.SCS
    automatic_params := none }

theorem applyAutomaticParams_eq (c : CUATRO) : CUATRO.applyAutomaticParams c = c := by
  unfold CUATRO.applyAutomaticParams
  rcases h : c.automatic_params with _ | q <;> simp

theorem init_ok_fields {a : CUATROArgs} {c : CUATRO} (h : CUATRO.init a = Except.ok c) :
    c.x0 = a.x0 ∧ c.sampling = a.sampling ∧ c.explore = a.explore := by
  unfold CUATRO.init at h
  split_ifs at h
  rw [applyAutomaticParams_eq] at h
  injection h with h
  subst h
  exact ⟨rfl, rfl, rfl⟩

theorem init_ok_domains {a : CUATROArgs} {c : CUATRO} (h : CUATRO.init a = Except.ok c) :
    (c.sampling = "base" ∨ c.sampling = "g") ∧
    (c.explore = none ∨ c.explore = some "feasible_sampling" ∨
      c.explore = some "exploit_explore" ∨ c.explore = some "sampling_region" ∨
      c.explore = some "TIS" ∨ c.explore = some "TIP") := by
  unfold CUATRO.init at h
  split_ifs at h with h1 h2 h3 h4 h5
  rw [applyAutomaticParams_eq] at h
  injection h with h
  subst h
  refine ⟨?_, ?_⟩
  · simpa using h3
  · simpa using h4

theorem post_self_proj (c : CUATRO) (b : Option (List (ℚ × ℚ))) :
    (c.post_self b).sampling = c.sampling ∧ (c.post_self b).explore = c.explore ∧
    (c.post_self b).x0 = c.x0 := by
  unfold CUATRO.post_self
  split <;> exact ⟨rfl, rfl, rfl⟩

theorem run_optimiser_congr {α β : Type} (impls : Variant → List ℚ → OptArgs α → β)
    (c1 c2 : CUATRO) (args : OptArgs α) (hs : c1.sampling = c2.sampling)
    (he : c1.explore = c2.explore) (hx : c1.x0 = c2.x0) :
    c1.run_optimiser impls args = c2.run_optimiser impls args := by
  obtain ⟨p1s, p1e, p1x⟩ := post_self_proj c1 args.bounds
  obtain ⟨p2s, p2e, p2x⟩ := post_self_proj c2 args.bounds
  simp only [CUATRO.run_optimiser, p1s, p1e, p1x, p2s, p2e, p2x, hs, he, hx]

/-- C6: `__init__` raises a `ValueError` exactly when one of the five
string-valued arguments (`method`, `constr_handling`, `sampling`,
`explore`, `solver_to_use`) lies outside its enumerated domain, and the
error is raised during construction itself: a `CUATRO` object exists if
and only if all five domains are respected. -/
theorem init_ok_iff_string_domains_valid (a : CUATROArgs) :
    (∃ c, CUATRO.init a = Except.ok c) ↔ stringDomainsValid a := by
  unfold CUATRO.init stringDomainsValid
  split_ifs with h1 h2 h3 h4 h5
  all_goals first
    | exact iff_of_true ⟨_, rfl⟩ ⟨h1, h2, h3, h4, h5⟩
    | exact iff_of_false (by simp) (by tauto)

/-- C9: the automatic-parameter-tuning block has no implemented effect:
constructing with an `automatic_params` dictionary (holding its three
required keys) yields exactly the object constructed with
`automatic_params=None`, except for the stored `automatic_params`
attribute itself, and fails in exactly the same cases. -/
theorem init_automatic_params_no_effect (a : CUATROArgs) (p : AutomaticParams) :
    CUATRO.init { a with automatic_params := some p }
      = Except.map (fun c => { c with automatic_params := some p })
          (CUATRO.init { a with automatic_params := none }) := by
  unfold CUATRO.init
  simp only [applyAutomaticParams_eq]
  split_ifs <;> rfl

/-- C1 counterexample: with `sampling='g'` and `explore='TIS'` (a
non-`None` explore with sampling different from `'base'`), `__init__`
succeeds — no configuration error is raised at construction time. -/
theorem init_accepts_explore_with_g_sampling :
    ∃ c, CUATRO.init { defaultArgs with explore := some "TIS" } = Except.ok c :=
  ⟨_, rfl⟩

/-- C1 amended: for every validly constructed object with a non-`None`
`explore` and `sampling` different from `'base'`, the configuration
`ValueError` is raised by `run_optimiser` at dispatch time — before any
variant `optimise` call and hence before any function evaluation (the
error is returned for every possible variant implementation `impls`,
which is never invoked). -/
theorem mismatch_error_raised_at_dispatch {α β : Type}
    (impls : Variant → List ℚ → OptArgs α → β) (a : CUATROArgs) (c : CUATRO)
    (args : OptArgs α) (h : CUATRO.init a = Except.ok c)
    (he : c.explore ≠ none) (hs : c.sampling ≠ "base") :
    c.run_optimiser impls args = Except.error mismatchMsg := by
  obtain ⟨hdom, _⟩ := init_ok_domains h
  have hg : c.sampling = "g" := by
    rcases hdom with h' | h'
    · exact absurd h' hs
    · exact h'
  obtain ⟨ps, pe, px⟩ := post_self_proj c args.bounds
  simp only [CUATRO.run_optimiser, ps, pe, px, hg]
  simp [he]


/-- The counterexample arguments for the explore/sampling mismatch:
`sampling='g'` (the default) with `explore='TIS'`. -/
def tisArgs : CUATROArgs := { defaultArgs with explore := some "TIS" }

/-- The object `CUATRO.init tisArgs` constructs. -/
def tisObj : CUATRO := { defaultObj with explore := some "TIS" }

/-- C1 witness: the amended theorem applied at the concrete
counterexample configuration. -/
theorem mismatch_error_raised_at_dispatch_witness :
    CUATRO.init tisArgs = Except.ok tisObj ∧
    tisObj.explore ≠ none ∧ tisObj.sampling ≠ "base" ∧
    CUATRO.run_optimiser (fun _ _ _ => (0 : Nat)) tisObj ⟨none, ()⟩
      = Except.error mismatchMsg :=
  ⟨rfl, by decide, by decide,
    mismatch_error_raised_at_dispatch (fun _ _ _ => (0 : Nat)) tisArgs tisObj
      ⟨none, ()⟩ rfl (by decide) (by decide)⟩

/-- The counterexample arguments for numeric validation: every numeric
hyperparameter outside its stated domain. -/
def cexNumArgs : CUATROArgs :=
  { defaultArgs with
    init_radius := -1
    max_iter := 0
    tolerance := 0
    beta_inc := 1
    beta_red := 2
    eta1 := 9/10
    eta2 := 1/10
    N_min_samples := 0 }

/-- C2 counterexample: a constructor call with every numeric argument
outside its stated domain (`init_radius=-1`, `max_iter=0`,
`tolerance=0`, `beta_inc=1`, `beta_red=2`, `eta1=9/10 > eta2=1/10`,
`N_min_samples=0`) succeeds, storing the values unchanged — no
descriptive error is raised. -/
theorem init_accepts_out_of_domain_numerics :
    ∃ c, CUATRO.init cexNumArgs = Except.ok c ∧
      c.init_radius = -1 ∧ c.beta_red = 2 ∧ c.eta1 = 9/10 :=
  ⟨_, rfl, rfl, rfl, rfl⟩

/-- C2 amended: `__init__` performs no numeric validation at all —
whenever the five string-valued arguments are in their domains,
construction succeeds for arbitrary numeric values, which are stored
unchanged (accepted silently, neither rejected nor clamped). -/
theorem init_stores_numerics_unvalidated (a : CUATROArgs) (h : stringDomainsValid a) :
    ∃ c, CUATRO.init a = Except.ok c ∧ c.init_radius = a.init_radius ∧
      c.max_iter = a.max_iter ∧ c.tolerance = a.tolerance ∧ c.beta_inc = a.beta_inc ∧
      c.beta_red = a.beta_red ∧ c.eta1 = a.eta1 ∧ c.eta2 = a.eta2 ∧
      c.N_min_samples = a.N_min_samples := by
  obtain ⟨h1, h2, h3, h4, h5⟩ := h
  unfold CUATRO.init
  rw [if_neg (not_not_intro h1), if_neg (not_not_intro h2), if_neg (not_not_intro h3),
    if_neg (not_not_intro h4), if_neg (not_not_intro h5), applyAutomaticParams_eq]
  exact ⟨_, rfl, rfl, rfl, rfl, rfl, rfl, rfl, rfl, rfl⟩

/-- C2 witness: the amended theorem applied at the baseline valid
arguments. -/
theorem init_stores_numerics_unvalidated_witness :
    stringDomainsValid defaultArgs ∧
    ∃ c, CUATRO.init defaultArgs = Except.ok c ∧
      c.init_radius = defaultArgs.init_radius ∧ c.max_iter = defaultArgs.max_iter ∧
      c.tolerance = defaultArgs.tolerance ∧ c.beta_inc = defaultArgs.beta_inc ∧
      c.beta_red = defaultArgs.beta_red ∧ c.eta1 = defaultArgs.eta1 ∧
      c.eta2 = defaultArgs.eta2 ∧ c.N_min_samples = defaultArgs.N_min_samples :=
  ⟨by decide, init_stores_numerics_unvalidated defaultArgs (by decide)⟩

/-- C3: two objects constructed with the same `x0`, `sampling` and
`explore` produce identical `run_optimiser` results on identical
arguments, whatever the variant implementations are: the dispatcher
reads no other configuration parameter, so `init_radius`, `max_iter`,
`tolerance`, the betas, the etas, `method`, `N_min_samples`,
`constr_handling`, the radii, `rescale_radius` and `solver_to_use`
cannot influence the output. -/
theorem run_optimiser_ignores_other_params {α β : Type}
    (impls : Variant → List ℚ → OptArgs α → β) (a1 a2 : CUATROArgs) (c1 c2 : CUATRO)
    (args : OptArgs α) (h1 : CUATRO.init a1 = Except.ok c1)
    (h2 : CUATRO.init a2 = Except.ok c2) (hx : a1.x0 = a2.x0)
    (hs : a1.sampling = a2.sampling) (he : a1.explore = a2.explore) :
    c1.run_optimiser impls args = c2.run_optimiser impls args := by
  obtain ⟨f1x, f1s, f1e⟩ := init_ok_fields h1
  obtain ⟨f2x, f2s, f2e⟩ := init_ok_fields h2
  exact run_optimiser_congr impls c1 c2 args (by rw [f1s, f2s, hs])
    (by rw [f1e, f2e, he]) (by rw [f1x, f2x, hx])

/-- Arguments differing from `defaultArgs` in six parameters other than
`x0`, `sampling` and `explore`. -/
def altArgs : CUATROArgs :=
  { defaultArgs with
    init_radius := 7
    beta_red := 1/2
    method := "global"
    constr_handling := "Regression"
    rescale_radius := true
    solver_to_use := "MOSEK" }

/-- The object `CUATRO.init altArgs` constructs. -/
def altObj : CUATRO :=
  { defaultObj with
    init_radius := 7
    beta_red := 1/2
    method := "global"
    constr_handling := "Regression"
    rescale_radius := true
    solver_to_use := SolverObject.MOSEK }

/-- C3 witness: two constructions differing in `init_radius`,
`beta_red`, `method`, `constr_handling`, `rescale_radius` and
`solver_to_use` give the same dispatch result. -/
theorem run_optimiser_ignores_other_params_witness :
    CUATRO.init defaultArgs = Except.ok defaultObj ∧
    CUATRO.init altArgs = Except.ok altObj ∧
    CUATRO.run_optimiser (fun v _ _ => v) defaultObj ⟨none, ()⟩
      = CUATRO.run_optimiser (fun v _ _ => v) altObj ⟨none, ()⟩ :=
  ⟨rfl, rfl,
    run_optimiser_ignores_other_params (fun v _ _ => v) defaultArgs altArgs
      defaultObj altObj ⟨none, ()⟩ rfl rfl rfl rfl rfl⟩

/-- C7: on every validly constructed object, `run_optimiser` either
raises the explore/sampling-mismatch `ValueError` (exactly when
`sampling='g'` and `explore` is not `None`) or selects the single
variant determined by the `(sampling, explore)` pair, constructs it
from `x0` alone, calls its `optimise` on exactly the received
arguments, and returns its result unchanged. -/
theorem run_optimiser_refines_selectVariant {α β : Type}
    (impls : Variant → List ℚ → OptArgs α → β) (a : CUATROArgs) (c : CUATRO)
    (args : OptArgs α) (h : CUATRO.init a = Except.ok c) :
    (c.sampling = "g" ∧ c.explore ≠ none ∧
      c.run_optimiser impls args = Except.error mismatchMsg) ∨
    (∃ v, selectVariant c.sampling c.explore = some v ∧
      c.run_optimiser impls args = Except.ok (impls v c.x0 args)) := by
  obtain ⟨hs, he⟩ := init_ok_domains h
  obtain ⟨ps, pe, px⟩ := post_self_proj c args.bounds
  rcases hs with hs | hs <;> rcases he with he | he | he | he | he | he <;>
    simp [CUATRO.run_optimiser, selectVariant, ps, pe, px, hs, he]

/-- C7 witness: the refinement theorem applied at the default
configuration (`sampling='g'`, `explore=None`), with the variant
implementations instantiated to return their own tag. -/
theorem run_optimiser_refines_selectVariant_witness :
    CUATRO.init defaultArgs = Except.ok defaultObj ∧
    ((defaultObj.sampling = "g" ∧ defaultObj.explore ≠ none ∧
      CUATRO.run_optimiser (fun v _ _ => v) defaultObj ⟨none, ()⟩
        = Except.error mismatchMsg) ∨
    (∃ v, selectVariant defaultObj.sampling defaultObj.explore = some v ∧
      CUATRO.run_optimiser (fun v _ _ => v) defaultObj ⟨none, ()⟩ = Except.ok v)) :=
  ⟨rfl, run_optimiser_refines_selectVariant (fun v _ _ => v) defaultArgs defaultObj
    ⟨none, ()⟩ rfl⟩

/-- A configuration with `rescale_radius=True`. -/
def rescObj : CUATRO := { defaultObj with rescale_radius := true }

/-- C8 counterexample: with `rescale_radius=True` and bounds `[(0,10)]`
supplied, a `run_optimiser` call does not leave the configuration
unchanged — `self.init_radius` is overwritten (here `1` becomes `5`). -/
theorem run_optimiser_mutates_init_radius :
    ((CUATRO.run_optimiser_state (fun _ _ _ => (0 : Nat)) rescObj
        ⟨some [((0 : ℚ), (10 : ℚ))], ()⟩).1).init_radius ≠ rescObj.init_radius := by
  norm_num [CUATRO.run_optimiser_state, CUATRO.post_self, rescObj, defaultObj,
    boundsTruthy, ut_rescale_radius]

/-- C8 amended: a `run_optimiser` call leaves every configuration
attribute unchanged except `init_radius`, which — exactly when
`rescale_radius` is set and truthy bounds are supplied — is overwritten
with the rescaled radius; with `rescale_radius=False` or without
bounds, `init_radius` too is unchanged. -/
theorem run_optimiser_state_frame {α β : Type}
    (impls : Variant → List ℚ → OptArgs α → β) (c : CUATRO) (args : OptArgs α) :
    ((CUATRO.run_optimiser_state impls c args).1.x0 = c.x0 ∧
     (CUATRO.run_optimiser_state impls c args).1.max_iter = c.max_iter ∧
     (CUATRO.run_optimiser_state impls c args).1.tolerance = c.tolerance ∧
     (CUATRO.run_optimiser_state impls c args).1.beta_inc = c.beta_inc ∧
     (CUATRO.run_optimiser_state impls c args).1.beta_red = c.beta_red ∧
     (CUATRO.run_optimiser_state impls c args).1.eta1 = c.eta1 ∧
     (CUATRO.run_optimiser_state impls c args).1.eta2 = c.eta2 ∧
     (CUATRO.run_optimiser_state impls c args).1.method = c.method ∧
     (CUATRO.run_optimiser_state impls c args).1.N_min_samples = c.N_min_samples ∧
     (CUATRO.run_optimiser_state impls c args).1.print_status = c.print_status ∧
     (CUATRO.run_optimiser_state impls c args).1.constr_handling = c.constr_handling ∧
     (CUATRO.run_optimiser_state impls c args).1.sampling = c.sampling ∧
     (CUATRO.run_optimiser_state impls c args).1.explore = c.explore ∧
     (CUATRO.run_optimiser_state impls c args).1.sampling_trust_pair = c.sampling_trust_pair ∧
     (CUATRO.run_optimiser_state impls c args).1.min_radius = c.min_radius ∧
     (CUATRO.run_optimiser_state impls c args).1.min_restart_radius = c.min_restart_radius ∧
     (CUATRO.run_optimiser_state impls c args).1.conv_radius = c.conv_radius ∧
     (CUATRO.run_optimiser_state impls c args).1.no_x0 = c.no_x0 ∧
     (CUATRO.run_optimiser_state impls c args).1.rescale_radius = c.rescale_radius ∧
     (CUATRO.run_optimiser_state impls c args).1.solver_to_use = c.solver_to_use ∧
     (CUATRO.run_optimiser_state impls c args).1.automatic_params = c.automatic_params) ∧
    (CUATRO.run_optimiser_state impls c args).1.init_radius =
      (if c.rescale_radius && boundsTruthy args.bounds
       then ut_rescale_radius c.init_radius (args.bounds.getD [])
       else c.init_radius) := by
  simp only [CUATRO.run_optimiser_state, CUATRO.post_self]
  split
  all_goals simp_all

/-- The concrete `optimise` arguments used to witness reproducibility. -/
def gArgs : OptArgs GPayload :=
  { bounds := none
    payload :=
      { sim := fun _ => (0 : ℚ)
        constraints := []
        max_f_eval := 3
        rnd := 1
        prior := [] } }

/-- C10: for an object configured with `sampling='g'`, re-running
`run_optimiser` with identical `sim`, `constraints`, `bounds`,
`max_f_eval`, `prior_evals` and `rnd` seed yields identical `f_store`
and `x_store` sequences — even though the first call may have rewritten
`init_radius`, the second call (made on the post-call state) returns
the same result. -/
theorem run_optimiser_g_reproducible (c : CUATRO) (args : OptArgs GPayload)
    (_hg : c.sampling = "g") :
    Except.map (fun o => (o.f_store, o.x_store))
        (CUATRO.run_optimiser CUATRO_impls (c.post_self args.bounds) args)
      = Except.map (fun o => (o.f_store, o.x_store))
          (CUATRO.run_optimiser CUATRO_impls c args) := by
  obtain ⟨ps, pe, px⟩ := post_self_proj c args.bounds
  rw [run_optimiser_congr CUATRO_impls (c.post_self args.bounds) c args ps pe px]

/-- C10 witness: the reproducibility theorem applied at the default
`sampling='g'` configuration and concrete arguments. -/
theorem run_optimiser_g_reproducible_witness :
    defaultObj.sampling = "g" ∧
    Except.map (fun o => (o.f_store, o.x_store))
        (CUATRO.run_optimiser CUATRO_impls (defaultObj.post_self gArgs.bounds) gArgs)
      = Except.map (fun o => (o.f_store, o.x_store))
          (CUATRO.run_optimiser CUATRO_impls defaultObj gArgs) :=
  ⟨rfl, run_optimiser_g_reproducible defaultObj gArgs rfl⟩

theorem evalOne_budget (sim : List ℚ → ℚ) (maxfe : Nat) (s : LoopState) (x : List ℚ)
    (h : s.f_evals ≤ maxfe) : (evalOne sim maxfe s x).1.f_evals ≤ maxfe := by
  unfold evalOne
  split
  · next hlt => exact hlt
  · exact h

theorem evalList_budget (sim : List ℚ → ℚ) (maxfe : Nat) (xs : List (List ℚ)) :
    ∀ s : LoopState, s.f_evals ≤ maxfe → (evalList sim maxfe s xs).1.f_evals ≤ maxfe := by
  induction xs with
  | nil => intro s h; exact h
  | cons x rest ih =>
      intro s h
      unfold evalList
      have hb := evalOne_budget sim maxfe s x h
      split
      · next s1 heq => rw [heq] at hb; exact hb
      · next s1 heq => rw [heq] at hb; exact ih s1 hb

theorem pushRecord_f_evals (s : LoopState) : (pushRecord s).f_evals = s.f_evals := by
  unfold pushRecord
  split <;> rfl

theorem ratioUpdate_f_evals (O : LoopOracle) (cfg : LoopCfg) (s1 s2 : LoopState)
    (xc : List ℚ) : (ratioUpdate O cfg s1 s2 xc).f_evals = s2.f_evals := by
  unfold ratioUpdate
  split_ifs <;> rfl

theorem samplePhase_budget (O : LoopOracle) (sim : List ℚ → ℚ) (cfg : LoopCfg)
    (s : LoopState) (h : s.f_evals ≤ cfg.max_f_eval) :
    (samplePhase O sim cfg s).1.f_evals ≤ cfg.max_f_eval := by
  unfold samplePhase
  split
  · exact evalList_budget sim cfg.max_f_eval (O.sampler s) s h
  · exact h

theorem iterStep_budget (O : LoopOracle) (sim : List ℚ → ℚ) (cfg : LoopCfg)
    (s : LoopState) (h : s.f_evals ≤ cfg.max_f_eval) :
    (iterStep O sim cfg s).1.f_evals ≤ cfg.max_f_eval := by
  unfold iterStep
  have hsp := samplePhase_budget O sim cfg s h
  split
  · next s1 heq =>
      rw [heq] at hsp
      simpa [pushRecord_f_evals] using hsp
  · next s1 heq =>
      rw [heq] at hsp
      have h2 := evalOne_budget sim cfg.max_f_eval s1 (O.solver s1) hsp
      split
      · next s2 heq2 =>
          rw [heq2] at h2
          simpa [pushRecord_f_evals] using h2
      · next s2 heq2 =>
          rw [heq2] at h2
          simpa [pushRecord_f_evals, ratioUpdate_f_evals] using h2

theorem runLoop_budget (O : LoopOracle) (sim : List ℚ → ℚ) (cfg : LoopCfg) :
    ∀ (n : Nat) (s : LoopState), s.f_evals ≤ cfg.max_f_eval →
      (runLoop O sim cfg n s).f_evals ≤ cfg.max_f_eval := by
  intro n
  induction n with
  | zero => intro s h; exact h
  | succ n ih =>
      intro s h
      unfold runLoop
      have hi := iterStep_budget O sim cfg s h
      split
      · next s1 heq => rw [heq] at hi; exact hi
      · next s1 heq => rw [heq] at hi; exact ih s1 hi

/-- C4: the trust-region loop never spends more true-function
evaluations than `max_f_eval` — for every sampler/solver/ratio
instantiation, every simulator, every configuration, every start point
and every prior history, the reported `f_evals` is at most the budget:
the cutoff is checked before each single evaluation and the loop stops
as soon as the budget refuses one. -/
theorem optimise_f_evals_le_budget (O : LoopOracle) (sim : List ℚ → ℚ) (cfg : LoopCfg)
    (x0 : List ℚ) (prior : List (List ℚ × ℚ)) :
    (optimise O sim cfg x0 prior).f_evals ≤ cfg.max_f_eval :=
  runLoop_budget O sim cfg cfg.max_iter (initState cfg x0 prior) (Nat.zero_le _)

/-- The last `f_store` entry, when one exists, is bounded below by the
current incumbent value: what gets appended next can only be equal or
smaller. -/
def bestLe (s : LoopState) : Prop :=
  ∀ l ∈ s.f_store.getLast?, ∃ b ∈ s.best, b.2 ≤ l

/-- The monotonicity invariant: `f_store` is non-increasing and its last
entry dominates the incumbent value. -/
def FMono (s : LoopState) : Prop :=
  List.Chain' (fun a b => b ≤ a) s.f_store ∧ bestLe s

theorem betterPair_snd_le (b : List ℚ × ℚ) (x : List ℚ) (fx : ℚ) :
    (betterPair b x fx).2 ≤ b.2 := by
  unfold betterPair
  split_ifs with h
  · exact le_of_lt h
  · exact le_refl _

theorem bestLe_recordEval (s : LoopState) (x : List ℚ) (fx : ℚ) (h : bestLe s) :
    bestLe (recordEval s x fx) := by
  intro l hl
  obtain ⟨b, hb, hble⟩ := h l hl
  have hbb : s.best = some b := hb
  refine ⟨betterPair b x fx, ?_, le_trans (betterPair_snd_le b x fx) hble⟩
  show (recordEval s x fx).best = some (betterPair b x fx)
  unfold recordEval
  simp [hbb]

theorem FMono_congr (s s' : LoopState) (hf : s'.f_store = s.f_store)
    (hb : s'.best = s.best) (h : FMono s) : FMono s' := by
  unfold FMono bestLe at *
  rw [hf, hb]
  exact h

theorem FMono_evalOne (sim : List ℚ → ℚ) (maxfe : Nat) (s : LoopState) (x : List ℚ)
    (h : FMono s) : FMono (evalOne sim maxfe s x).1 := by
  unfold evalOne
  split
  · exact FMono_congr (recordEval s x (sim x)) _ rfl rfl
      ⟨h.1, bestLe_recordEval s x (sim x) h.2⟩
  · exact h

theorem FMono_evalList (sim : List ℚ → ℚ) (maxfe : Nat) (xs : List (List ℚ)) :
    ∀ s : LoopState, FMono s → FMono (evalList sim maxfe s xs).1 := by
  induction xs with
  | nil => intro s h; exact h
  | cons x rest ih =>
      intro s h
      unfold evalList
      have hb := FMono_evalOne sim maxfe s x h
      split
      · next s1 heq => rw [heq] at hb; exact hb
      · next s1 heq => rw [heq] at hb; exact ih s1 hb

theorem FMono_pushRecord (s : LoopState) (h : FMono s) : FMono (pushRecord s) := by
  unfold pushRecord
  split
  · exact h
  · next b heq =>
      obtain ⟨hc, hb⟩ := h
      constructor
      · show List.Chain' (fun a b => b ≤ a) (s.f_store ++ [b.2])
        rw [List.chain'_append]
        refine ⟨hc, List.chain'_singleton _, ?_⟩
        intro l hl y hy
        simp only [List.head?_cons, Option.mem_def, Option.some.injEq] at hy
        subst hy
        obtain ⟨b', hb', hble⟩ := hb l hl
        have hbb : b' = b := by
          rw [heq] at hb'
          exact (Option.some_inj.mp (Option.mem_def.mp hb')).symm
        rw [hbb] at hble
        exact hble
      · intro l hl
        have hlast : (s.f_store ++ [b.2]).getLast? = some b.2 := List.getLast?_concat _
        have hget : l ∈ (s.f_store ++ [b.2]).getLast? := hl
        rw [hlast] at hget
        have hlb : l = b.2 := (Option.mem_some_iff.mp hget).symm
        subst hlb
        exact ⟨b, heq, le_refl _⟩

theorem ratioUpdate_f_store (O : LoopOracle) (cfg : LoopCfg) (s1 s2 : LoopState)
    (xc : List ℚ) : (ratioUpdate O cfg s1 s2 xc).f_store = s2.f_store := by
  unfold ratioUpdate
  split_ifs <;> rfl

theorem ratioUpdate_best (O : LoopOracle) (cfg : LoopCfg) (s1 s2 : LoopState)
    (xc : List ℚ) : (ratioUpdate O cfg s1 s2 xc).best = s2.best := by
  unfold ratioUpdate
  split_ifs <;> rfl

theorem FMono_samplePhase (O : LoopOracle) (sim : List ℚ → ℚ) (cfg : LoopCfg)
    (s : LoopState) (h : FMono s) : FMono (samplePhase O sim cfg s).1 := by
  unfold samplePhase
  split
  · exact FMono_evalList sim cfg.max_f_eval (O.sampler s) s h
  · exact h

theorem FMono_iterStep (O : LoopOracle) (sim : List ℚ → ℚ) (cfg : LoopCfg)
    (s : LoopState) (h : FMono s) : FMono (iterStep O sim cfg s).1 := by
  unfold iterStep
  have hsp := FMono_samplePhase O sim cfg s h
  split
  · next s1 heq =>
      rw [heq] at hsp
      exact FMono_pushRecord s1 hsp
  · next s1 heq =>
      rw [heq] at hsp
      have h2 := FMono_evalOne sim cfg.max_f_eval s1 (O.solver s1) hsp
      split
      · next s2 heq2 =>
          rw [heq2] at h2
          exact FMono_pushRecord s2 h2
      · next s2 heq2 =>
          rw [heq2] at h2
          exact FMono_pushRecord (ratioUpdate O cfg s1 s2 (O.solver s1))
            (FMono_congr s2 (ratioUpdate O cfg s1 s2 (O.solver s1))
              (ratioUpdate_f_store O cfg s1 s2 (O.solver s1))
              (ratioUpdate_best O cfg s1 s2 (O.solver s1)) h2)

theorem FMono_runLoop (O : LoopOracle) (sim : List ℚ → ℚ) (cfg : LoopCfg) :
    ∀ (n : Nat) (s : LoopState), FMono s → FMono (runLoop O sim cfg n s) := by
  intro n
  induction n with
  | zero => intro s h; exact h
  | succ n ih =>
      intro s h
      unfold runLoop
      have hi := FMono_iterStep O sim cfg s h
      split
      · next s1 heq => rw [heq] at hi; exact hi
      · next s1 heq => rw [heq] at hi; exact ih s1 hi

theorem FMono_initState (cfg : LoopCfg) (x0 : List ℚ) (prior : List (List ℚ × ℚ)) :
    FMono (initState cfg x0 prior) := by
  constructor
  · exact List.chain'_nil
  · intro l hl
    simp [initState] at hl

/-- C5: the reported `f_store` sequence is non-increasing from one
iteration to the next — each entry records the best function value so
far, and an accepted step never increases it — for every
sampler/solver/ratio instantiation, simulator, configuration, start
point and prior history. -/
theorem optimise_f_store_monotone (O : LoopOracle) (sim : List ℚ → ℚ) (cfg : LoopCfg)
    (x0 : List ℚ) (prior : List (List ℚ × ℚ)) :
    List.Chain' (fun a b => b ≤ a) (optimise O sim cfg x0 prior).f_store :=
  (FMono_runLoop O sim cfg cfg.max_iter (initState cfg x0 prior)
    (FMono_initState cfg x0 prior)).1
